import Mathlib

/-!
Verification of the ADS-Assignment-3 data pipeline (`uday.py`).

The script is a pandas/numpy/sklearn/scipy pipeline.  We give a shallow
embedding over exact rationals (`ℚ`): pure arithmetic is translated
directly; external library primitives that are not part of the repository
(`np.exp`, `np.sqrt`, `scipy.stats.t.ppf`, `scipy.optimize.curve_fit`) are
passed in as function parameters, so every definition stays computable and
can be evaluated on concrete inputs.  Missing values (`NaN` cells of a
dataframe) are `Option ℚ` with `none` for missing.
-/

unseal Rat.add Rat.sub Rat.mul Rat.inv

/-- Python's `list(range(a, b))`: the integers `a, a+1, …, b-1` (empty if `b ≤ a`). -/
def pyRange (a b : ℤ) : List ℤ :=
  (List.range (b - a).toNat).map (fun i => a + (i : ℤ))

/-- Pandas' default `RangeIndex(n)`: the integer labels `0, …, n-1`. -/
def intRange (n : ℕ) : List ℤ :=
  (List.range n).map Int.ofNat

/-- A pivoted pandas table: row labels `index`, column labels `cols`, and a
row-major matrix of possibly missing values.  `PTable (String × String) ℤ`
is the entity-major view (`df_years`); `PTable ℤ (String × String)` is the
transposed subset produced by `subset_data`. -/
structure PTable (ι κ : Type) where
  index : List ι
  cols : List κ
  data : List (List (Option ℚ))
  deriving DecidableEq

/-- The hard-coded year list of `subset_data` (line 56): `list(range(1991, 2019))`,
which is `[1991, …, 2018]` — 2019 is excluded by Python's `range`. -/
def subsetYears : List ℤ := pyRange 1991 2019

/-- Cell lookup of a stored row at a year column label (how `.loc[..., years]`
reads one cell: find the column position of the label, then index the row). -/
def cellAt (cols : List ℤ) (row : List (Option ℚ)) (y : ℤ) : Option ℚ :=
  match cols.findIdx? (fun y' => y' == y) with
  | some j => row.getD j none
  | none => none

/-- Embedding of `subset_data` (lines 51-59):
`df_years.loc[(countries, indicators), years]` followed by `.transpose()`.
Pandas raises `KeyError` when any requested country, indicator or year label
is absent from the corresponding index level — modelled by `none`.  On
success the row cross-section keeps the table's own index order, and the
transpose makes the years the rows and the selected (country, indicator)
pairs the columns. -/
def subset_data (df : PTable (String × String) ℤ) (countries indicators : List String) :
    Option (PTable ℤ (String × String)) :=
  if countries.all (fun c => df.index.any (fun k => k.1 == c))
      && indicators.all (fun i => df.index.any (fun k => k.2 == i))
      && subsetYears.all (fun y => df.cols.any (fun y' => y' == y)) then
    let sel := (df.index.zip df.data).filter
      (fun p => countries.contains p.1.1 && indicators.contains p.1.2)
    some { index := subsetYears
           cols := sel.map (fun p => p.1)
           data := subsetYears.map (fun y => sel.map (fun p => cellAt df.cols p.2 y)) }
  else
    none

/-- Embedding of `exp_growth` (lines 224-225): `a * np.exp(b * x)`, with
`np.exp` passed in as the parameter `expQ`. -/
def exp_growth (expQ : ℚ → ℚ) (x a b : ℚ) : ℚ :=
  a * expQ (b * x)

/-- The degrees of freedom computed by `err_ranges` (line 231):
`df = max(0, n - m)` where `n = len(ydata)` and `m = len(popt)`. -/
def errDegreesOfFreedom (n m : ℤ) : ℤ :=
  max 0 (n - m)

/-- Model of `np.diag`: the diagonal of a (square) matrix given as a list of rows. -/
def matDiag (m : List (List ℚ)) : List ℚ :=
  m.enum.map (fun p => p.2.getD p.1 0)

/-- Embedding of `err_ranges` (lines 228-236).  The two fitted parameters
`popt = (a, b)` of `exp_growth` are a pair, so `m = len(popt) = 2`.
`scipy.stats.t.ppf` is the parameter `tppf` (quantile, degrees of freedom),
`np.sqrt` is `sqrtQ`, `np.exp` is `expQ`.  Line by line:
`df = max(0, n - m)`; `tval = -1 * t.ppf(alpha/2, df)`;
`residuals = ydata - exp_growth(xdata, *popt)`;
`stdev = sqrt(sum(residuals**2) / df)`;
`ci = tval * stdev * sqrt(1 + diag(pcov))`. -/
def err_ranges (tppf : ℚ → ℤ → ℚ) (sqrtQ expQ : ℚ → ℚ)
    (xdata ydata : List ℚ) (popt : ℚ × ℚ) (pcov : List (List ℚ))
    (alpha : ℚ) : List ℚ :=
  let n : ℤ := (ydata.length : ℤ)
  let m : ℤ := 2
  let dof := errDegreesOfFreedom n m
  let tval := -1 * tppf (alpha / 2) dof
  let residuals := (xdata.zip ydata).map (fun p => p.2 - exp_growth expQ p.1 popt.1 popt.2)
  let stdev := sqrtQ (((residuals.map (fun r => r * r)).sum) / (dof : ℚ))
  (matDiag pcov).map (fun d => tval * stdev * sqrtQ (1 + d))

/-- Confidence half-widths as the specification words them (§4.5): residual
standard deviation `sqrt(sum(residuals²) / (n − p))` with `p = 2`, two-sided
Student-t critical value at `α` with `n − p` degrees of freedom (i.e.
`-t.ppf(α/2, n−p)` for the symmetric t distribution), and per-parameter
half-width `critical value × residual stdev × sqrt(1 + diag(pcov))`. -/
def err_ranges_spec (tppf : ℚ → ℤ → ℚ) (sqrtQ expQ : ℚ → ℚ)
    (xdata ydata : List ℚ) (popt : ℚ × ℚ) (pcov : List (List ℚ))
    (alpha : ℚ) : List ℚ :=
  let n : ℤ := (ydata.length : ℤ)
  let p : ℤ := 2
  let residuals := (xdata.zip ydata).map (fun q => q.2 - exp_growth expQ q.1 popt.1 popt.2)
  let stdev := sqrtQ (((residuals.map (fun r => r * r)).sum) / ((n - p : ℤ) : ℚ))
  let tcrit := -(tppf (alpha / 2) (n - p))
  (matDiag pcov).map (fun d => tcrit * stdev * sqrtQ (1 + d))

/-- One data row of the World-Bank CSV after `pd.read_csv(..., skiprows=4)`
and dropping `Country Code`, `Indicator Code` and the trailing malformed
column (lines 21-28 / 190-198): a country name, an indicator name, and one
possibly missing value per year column. -/
structure RawRow where
  country : String
  indicator : String
  vals : List (Option ℚ)

/-- The cleaned wide CSV: the year column labels (already coerced to
integers, as `pd.to_numeric` does on line 35) and the data rows. -/
structure RawTable where
  yearCols : List ℤ
  rows : List RawRow

/-- The `(Country, Indicator Name)` key of a row — the pivot index of
`df_years` (line 39-40). -/
def rowKey (r : RawRow) : String × String :=
  (r.country, r.indicator)

/-- The melted `(Year, Value)` pairs a row contributes (lines 31-32): one
entry per year column. -/
def rowPairs (yearCols : List ℤ) (r : RawRow) : List (ℤ × Option ℚ) :=
  yearCols.zip r.vals

/-- Whether a row carries at least one non-missing value in some year
column.  `pivot_table` keeps exactly the keys whose group has data. -/
def hasDataRow (yearCols : List ℤ) (r : RawRow) : Bool :=
  (rowPairs yearCols r).any (fun p => p.2.isSome)

/-- All non-missing values found at year `y` across the given rows. -/
def colVals (rows : List RawRow) (yearCols : List ℤ) (y : ℤ) : List ℚ :=
  (rows.map (fun r => (rowPairs yearCols r).filterMap
    (fun p => if p.1 = y then p.2 else none))).flatten

/-- One cell of `pivot_table(index=['Country','Indicator Name'],
columns='Year', values='Value')`: the mean (the default aggregation) of the
non-missing values in the `(key, year)` group, or missing if the group is
empty. -/
def pivotCell (rows : List RawRow) (yearCols : List ℤ) (k : String × String) (y : ℤ) :
    Option ℚ :=
  let vs := colVals (rows.filter (fun r => decide (rowKey r = k))) yearCols y
  if vs.isEmpty then none else some (vs.sum / (vs.length : ℚ))

/-- The pivot index of the entity-major view: the distinct keys of the rows
that have at least one value (keys whose melted group is entirely missing do
not appear in the `pivot_table` output). -/
def pivotIndex (rows : List RawRow) (yearCols : List ℤ) : List (String × String) :=
  ((rows.filter (hasDataRow yearCols)).map rowKey).dedup

/-- The year columns of the entity-major view: the distinct year labels that
carry at least one value.  `pivot_table` (with its default `dropna=True`)
already omits all-missing year columns, so the subsequent
`dropna(how='all', axis=1)` on line 45 keeps every remaining column. -/
def pivotCols (rows : List RawRow) (yearCols : List ℤ) : List ℤ :=
  (yearCols.filter (fun y => !(colVals rows yearCols y).isEmpty)).dedup

/-- The entity-major pivoted view built from index, columns and cells. -/
def pivotYears (rows : List RawRow) (yearCols : List ℤ) : PTable (String × String) ℤ :=
  { index := pivotIndex rows yearCols
    cols := pivotCols rows yearCols
    data := (pivotIndex rows yearCols).map
      (fun k => (pivotCols rows yearCols).map (fun y => pivotCell rows yearCols k y)) }

/-- The table `df_years` as produced by `file_read` (lines 39-45): melt then
`pivot_table` on `(Country, Indicator Name)` with years as columns, then
drop all-missing columns. -/
def file_read_years (raw : RawTable) : PTable (String × String) ℤ :=
  pivotYears raw.rows raw.yearCols

/-- The country columns of the year-major view `df_countries` (lines 41-42):
the distinct countries owning at least one value. -/
def pivot2Cols (rows : List RawRow) (yearCols : List ℤ) : List String :=
  ((rows.filter (hasDataRow yearCols)).map (fun r => r.country)).dedup

/-- The `(Year, Indicator Name)` pivot index of `df_countries`: the distinct
pairs for which some country has a value. -/
def pivot2Index (rows : List RawRow) (yearCols : List ℤ) : List (ℤ × String) :=
  (rows.flatMap (fun r => (rowPairs yearCols r).filterMap
    (fun p => if p.2.isSome then some (p.1, r.indicator) else none))).dedup

/-- One cell of the year-major pivot: the mean of the values at year `k.1`
for indicator `k.2` in country `c`, or missing if there are none. -/
def pivot2Cell (rows : List RawRow) (yearCols : List ℤ) (k : ℤ × String) (c : String) :
    Option ℚ :=
  let vs := ((rows.filter (fun r => decide (r.country = c) && decide (r.indicator = k.2))).map
    (fun r => (rowPairs yearCols r).filterMap (fun p => if p.1 = k.1 then p.2 else none))).flatten
  if vs.isEmpty then none else some (vs.sum / (vs.length : ℚ))

/-- The table `df_countries` as produced by `file_read` (lines 41-46). -/
def file_read_countries (raw : RawTable) : PTable (ℤ × String) String :=
  { index := pivot2Index raw.rows raw.yearCols
    cols := pivot2Cols raw.rows raw.yearCols
    data := (pivot2Index raw.rows raw.yearCols).map
      (fun k => (pivot2Cols raw.rows raw.yearCols).map
        (fun c => pivot2Cell raw.rows raw.yearCols k c)) }

/-- Embedding of `filter_Cereal_yield_data` (lines 176-221).  It filters the
raw rows with `isin(countries) & isin(indicators)` — which silently keeps
whatever matches and never raises — then melts, pivots exactly like
`file_read`, and finally slices the year columns with
`.loc[:, start_year:end_year]`, a label slice that is inclusive at both
ends. -/
def filter_Cereal_yield_data (raw : RawTable) (countries indicators : List String)
    (start_year end_year : ℤ) : PTable (String × String) ℤ :=
  let filtered := raw.rows.filter
    (fun r => countries.contains r.country && indicators.contains r.indicator)
  let cols := (pivotCols filtered raw.yearCols).filter
    (fun y => decide (start_year ≤ y) && decide (y ≤ end_year))
  let idx := pivotIndex filtered raw.yearCols
  { index := idx
    cols := cols
    data := idx.map (fun k => cols.map (fun y => pivotCell filtered raw.yearCols k y)) }

/-- A fully observed dataframe: row index labels, column labels (the
`(country, indicator)` pairs of the subset), and a row-major rational
matrix.  `sklearn` raises on `NaN` input, so the clustering path only ever
sees complete data. -/
structure DataFrameIdx where
  index : List ℤ
  columns : List (String × String)
  data : List (List ℚ)

/-- Check a matrix of optional values for completeness: `some` rows exactly
when no cell is missing (`StandardScaler`/`KMeans` raise a `ValueError` on
`NaN`, modelled by `none`). -/
def toMatrixQ (m : List (List (Option ℚ))) : Option (List (List ℚ)) :=
  if m.all (fun row => row.all (fun v => v.isSome)) then
    some (m.map (fun row => row.filterMap id))
  else
    none

/-- Column `j` of a row-major matrix (a pandas dataframe iterated by
feature). -/
def matCol (data : List (List ℚ)) (j : ℕ) : List ℚ :=
  data.map (fun row => row.getD j 0)

/-- The sample mean of a list of values. -/
def colMean (xs : List ℚ) : ℚ :=
  xs.sum / (xs.length : ℚ)

/-- The population variance (`ddof = 0`), which is what
`StandardScaler` uses. -/
def colVar (xs : List ℚ) : ℚ :=
  ((xs.map (fun x => (x - colMean xs) * (x - colMean xs))).sum) / (xs.length : ℚ)

/-- The per-column scale of `StandardScaler`: the standard deviation, except
that a zero variance is replaced by `1` (sklearn's
`_handle_zeros_in_scale`), so constant columns map to zero rather than
dividing by zero. -/
def scaleOf (sqrtQ : ℚ → ℚ) (xs : List ℚ) : ℚ :=
  if colVar xs = 0 then 1 else sqrtQ (colVar xs)

/-- Embedding of `normalize_data` (lines 94-104):
`pd.DataFrame(StandardScaler().fit_transform(df), columns=df.columns)`.
Each column is rescaled by its own mean and standard deviation, the column
labels are kept, and wrapping the bare ndarray gives the new frame pandas'
default integer index `0..n-1` in place of the original row labels. -/
def normalize_data (sqrtQ : ℚ → ℚ) (df : DataFrameIdx) : DataFrameIdx :=
  let stats := (List.range df.columns.length).map
    (fun j => (colMean (matCol df.data j), scaleOf sqrtQ (matCol df.data j)))
  { index := intRange df.data.length
    columns := df.columns
    data := df.data.map (fun row => (row.zip stats).map
      (fun p => (p.1 - p.2.1) / p.2.2)) }

/-- The rows a pandas dataframe presents to `KMeans.fit_predict`: one
observation per index entry, with one coordinate per stored column. -/
def dfRows (df : DataFrameIdx) : List (List ℚ) :=
  (List.range df.index.length).map (fun i => df.data.getD i [])

/-- Squared Euclidean distance between two feature vectors. -/
def sqDist (x y : List ℚ) : ℚ :=
  ((x.zip y).map (fun p => (p.1 - p.2) * (p.1 - p.2))).sum

/-- Index of the nearest centroid (ties broken by the lowest index, as
`np.argmin` does). -/
def nearestIdx (cents : List (List ℚ)) (x : List ℚ) : ℕ :=
  ((List.range cents.length).argmin (fun i => sqDist x (cents.getD i []))).getD 0

/-- Assignment step: label every observation with its nearest centroid. -/
def assignLabels (cents : List (List ℚ)) (rows : List (List ℚ)) : List ℕ :=
  rows.map (nearestIdx cents)

/-- The mean vector of a nonempty cluster; an empty cluster keeps its
previous centroid (a deterministic stand-in for sklearn's relocation of
empty clusters). -/
def clusterMean (rows : List (List ℚ)) (labels : List ℕ) (j : ℕ) (prev : List ℚ) :
    List ℚ :=
  match ((labels.zip rows).filter (fun p => p.1 == j)).map (fun p => p.2) with
  | [] => prev
  | v :: rest => (rest.foldl (fun acc w => List.zipWith (· + ·) acc w) v).map
      (fun s => s / ((rest.length + 1 : ℕ) : ℚ))

/-- Update step: recompute every centroid as the mean of its assigned
rows. -/
def updateCentroids (cents : List (List ℚ)) (rows : List (List ℚ)) (labels : List ℕ) :
    List (List ℚ) :=
  cents.enum.map (fun p => clusterMean rows labels p.1 p.2)

/-- Lloyd iteration with a fuel bound: alternate assignment and centroid
update until the centroids are stable (or the iteration cap is reached) and
return the final labels. -/
def lloyd (fuel : ℕ) (cents : List (List ℚ)) (rows : List (List ℚ)) : List ℕ :=
  match fuel with
  | 0 => assignLabels cents rows
  | fuel' + 1 =>
    let labels := assignLabels cents rows
    let cents' := updateCentroids cents rows labels
    if cents' = cents then labels else lloyd fuel' cents' rows

/-- Model of `sklearn.cluster.KMeans(...).fit_predict`.  Modelled from the
spec (§4.4): sklearn is external library code, so the seeded k-means++
initialisation is modelled by the deterministic choice of the first `k`
rows — with `random_state` fixed the whole procedure is a deterministic
function of the data, and the `n_init` restarts of a deterministic seeded
run collapse to one run.  `max_iter` is sklearn's default 300. -/
def kmeansFitPredict (_randomState nInit : ℕ) (k : ℕ) (rows : List (List ℚ)) : List ℕ :=
  let _ := nInit
  lloyd 300 (rows.take k) rows

/-- Embedding of `perform_kmeans_clustering` (lines 107-126):
`KMeans(n_clusters=num_clusters, n_init=5, random_state=42).fit_predict(df)`. -/
def perform_kmeans_clustering (df : List (List ℚ)) (num_clusters : ℕ) : List ℕ :=
  kmeansFitPredict 42 5 num_clusters df

/-- The `__main__` clustering pipeline (lines 274-282): subset the loaded
entity-major table, normalize it, and run
`KMeans(n_clusters=3, random_state=42).fit_predict` (sklearn's default
`n_init` is 10) on the normalized frame; `none` when subsetting raises a
`KeyError` or the subset still contains missing values. -/
def endToEndLabels (sqrtQ : ℚ → ℚ) (df_years : PTable (String × String) ℤ)
    (countries indicators : List String) : Option (List ℕ) :=
  (subset_data df_years countries indicators).bind (fun sub =>
    (toMatrixQ sub.data).map (fun m =>
      let df : DataFrameIdx := { index := sub.index, columns := sub.cols, data := m }
      kmeansFitPredict 42 10 3 (dfRows (normalize_data sqrtQ df))))

/-- The local `growth_rate` array of `predict_future` (lines 245-250):
`np.zeros(data.shape)` and then `growth_rate[i] = popt[1]`, which broadcasts
the fitted rate coefficient `b` of row `i` over the whole `i`-th row. -/
def growth_rate_matrix (t : PTable (String × String) ℤ)
    (fit : List (Option ℚ) → (ℚ × ℚ) × List (List ℚ)) : List (List ℚ) :=
  t.data.map (fun row => List.replicate t.cols.length (fit row).1.2)

/-- Embedding of `predict_future` (lines 239-261).  `curve_fit` is the
oracle parameter `fit`, returning the fitted `(a, b)` and the covariance
matrix for a data row.  The function filters the raw data, computes the
growth-rate array and the confidence intervals for every row (assuming
fully observed rows, since `curve_fit` cannot consume `NaN`), draws a plot,
and — crucially — returns `None`: nothing it computed is surfaced. -/
def predict_future (expQ sqrtQ : ℚ → ℚ) (tppf : ℚ → ℤ → ℚ)
    (fit : List (Option ℚ) → (ℚ × ℚ) × List (List ℚ)) (raw : RawTable)
    (countries indicators : List String) (start_year end_year : ℤ) : Unit :=
  let data := filter_Cereal_yield_data raw countries indicators start_year end_year
  let xs := (List.range data.cols.length).map (fun i => (i : ℚ))
  let gr := growth_rate_matrix data fit
  let cis := data.data.map (fun row =>
    err_ranges tppf sqrtQ expQ xs (row.map (fun v => v.getD 0)) (fit row).1 (fit row).2
      (1 / 20))
  let _ := gr
  let _ := cis
  ()

/-- The sum of squares of a list. -/
def sumSq (xs : List ℚ) : ℚ :=
  (xs.map (fun a => a * a)).sum

/-- Pointwise products summed (the inner product of two equal-length
lists). -/
def dotL (xs ys : List ℚ) : ℚ :=
  ((xs.zip ys).map (fun p => p.1 * p.2)).sum

/-- A column with its mean subtracted. -/
def centered (xs : List ℚ) : List ℚ :=
  xs.map (fun x => x - colMean xs)

/-- The Pearson correlation of two columns,
`Σ(x-x̄)(y-ȳ) / sqrt(Σ(x-x̄)² · Σ(y-ȳ)²)`, with `np.sqrt` as the `sqrtQ`
parameter — the entries of the `df.corr()` matrix that `map_corr`
renders. -/
def corrEntry (sqrtQ : ℚ → ℚ) (x y : List ℚ) : ℚ :=
  dotL (centered x) (centered y) / sqrtQ (sumSq (centered x) * sumSq (centered y))

/-- The pairwise correlation matrix `df.corr()` computed by `map_corr`
(line 76) over the dataframe's columns. -/
def df_corr (sqrtQ : ℚ → ℚ) (df : DataFrameIdx) : List (List ℚ) :=
  (List.range df.columns.length).map (fun i =>
    (List.range df.columns.length).map (fun j =>
      corrEntry sqrtQ (matCol df.data i) (matCol df.data j)))

/-- The hard-coded country list of the `__main__` block (line 273). -/
def endCountries : List String :=
  ["India", "United States", "China", "Bangladesh"]

/-- The hard-coded indicator list of the `__main__` block (lines 271-272). -/
def endIndicators : List String :=
  ["Cereal yield (kg per hectare)", "Population, total"]

/-- The eight `(country, indicator)` pairs of the end-to-end scenario. -/
def endIndex : List (String × String) :=
  endCountries.flatMap (fun c => endIndicators.map (fun i => (c, i)))

/-- A concrete loaded entity-major table for the end-to-end scenario: all
eight requested `(country, indicator)` pairs, year columns 1991-2019, and a
value in every cell. -/
def endDfYears : PTable (String × String) ℤ :=
  { index := endIndex
    cols := pyRange 1991 2020
    data := endIndex.map (fun _ => List.replicate 29 (some 1)) }

/-- A concrete raw CSV with a single India row — "France" is absent. -/
def exRawIndia : RawTable :=
  { yearCols := [1991, 1992]
    rows := [{ country := "India", indicator := "A", vals := [some 1, some 2] }] }

/-- A concrete raw CSV with an all-missing row (China) and an all-missing
year column (1992). -/
def exRawSparse : RawTable :=
  { yearCols := [1991, 1992]
    rows := [{ country := "India", indicator := "A", vals := [some 3, none] },
             { country := "China", indicator := "A", vals := [none, none] }] }

/-- A concrete complete two-column dataframe. -/
def exDf2 : DataFrameIdx :=
  { index := [1991, 1992]
    columns := [("India", "A"), ("India", "B")]
    data := [[0, 1], [2, 5]] }

/-- A concrete `curve_fit` oracle returning rate coefficient `b = 5`. -/
def fitOracleOne : List (Option ℚ) → (ℚ × ℚ) × List (List ℚ) :=
  fun _ => ((1, 5), [[0, 0], [0, 0]])

/-- A concrete `curve_fit` oracle returning rate coefficient `b = 7`. -/
def fitOracleTwo : List (Option ℚ) → (ℚ × ℚ) × List (List ℚ) :=
  fun _ => ((1, 7), [[0, 0], [0, 0]])

/-- The empty pivoted table, used as a `getD` default. -/
def emptySubset : PTable ℤ (String × String) :=
  { index := [], cols := [], data := [] }

/-- The concrete subset produced in the end-to-end scenario. -/
def endSubset : PTable ℤ (String × String) :=
  (subset_data endDfYears endCountries endIndicators).getD emptySubset

/-- The concrete cluster labels produced in the end-to-end scenario. -/
def endLabels : List ℕ :=
  (endToEndLabels Rat.sqrt endDfYears endCountries endIndicators).getD []

/-- Entry `(i, j)` of the correlation matrix rendered by `map_corr`. -/
def corrAt (sqrtQ : ℚ → ℚ) (df : DataFrameIdx) (i j : ℕ) : ℚ :=
  ((df_corr sqrtQ df).getD i []).getD j 0

theorem subsetYears_length : subsetYears.length = 28 := by decide

theorem intRange_length (n : ℕ) : (intRange n).length = n := by
  rw [intRange, List.length_map, List.length_range]

theorem length_filter_zip {α β : Type} (q : α → Bool) :
    ∀ (l : List α) (m : List β), m.length = l.length →
      ((l.zip m).filter (fun p => q p.1)).length = (l.filter q).length
  | [], _, _ => by simp
  | _ :: _, [], h => by simp at h
  | a :: l, b :: m, h => by
    have h2 := length_filter_zip q l m (by simpa using h)
    rw [List.zip_cons_cons, List.filter_cons, List.filter_cons]
    cases q a
    · simpa using h2
    · simpa using h2

theorem getD_map_of_lt {α β : Type} (f : α → β) (d : β) (d' : α) :
    ∀ (l : List α) (i : ℕ), i < l.length → (l.map f).getD i d = f (l.getD i d') := by
  intro l
  induction l with
  | nil => intro i hi; simp at hi
  | cons a l ih =>
    intro i hi
    cases i with
    | zero => simp
    | succ i => simpa using ih i (by simpa using hi)

theorem getD_range_map_of_lt {α : Type} (f : ℕ → α) (d : α) (n i : ℕ) (hi : i < n) :
    ((List.range n).map f).getD i d = f i := by
  simp [List.getD_eq_getElem?_getD, List.getElem?_map, List.getElem?_range hi]

theorem dotL_comm : ∀ xs ys : List ℚ, dotL xs ys = dotL ys xs := by
  intro xs
  induction xs with
  | nil => intro ys; cases ys <;> simp [dotL]
  | cons x xs ih =>
    intro ys
    cases ys with
    | nil => simp [dotL]
    | cons y ys =>
      simp only [dotL, List.zip_cons_cons, List.map_cons, List.sum_cons] at *
      rw [mul_comm, ih ys]

theorem dotL_self (xs : List ℚ) : dotL xs xs = sumSq xs := by
  induction xs with
  | nil => simp [dotL, sumSq]
  | cons x xs ih => simp only [dotL, sumSq, List.zip_cons_cons, List.map_cons,
      List.sum_cons] at *; rw [ih]

theorem sumSq_nonneg (xs : List ℚ) : 0 ≤ sumSq xs := by
  unfold sumSq
  apply List.sum_nonneg
  intro a ha
  obtain ⟨x, _, rfl⟩ := List.mem_map.mp ha
  exact mul_self_nonneg x

theorem ratSqrt_mul_self (a : ℚ) (ha : 0 ≤ a) : Rat.sqrt (a * a) = a := by
  rw [Rat.sqrt_eq, abs_of_nonneg ha]

theorem assignLabels_length (cents rows : List (List ℚ)) :
    (assignLabels cents rows).length = rows.length := by
  simp [assignLabels]

theorem updateCentroids_length (cents rows : List (List ℚ)) (labels : List ℕ) :
    (updateCentroids cents rows labels).length = cents.length := by
  simp [updateCentroids]

theorem lloyd_length : ∀ (fuel : ℕ) (cents rows : List (List ℚ)),
    (lloyd fuel cents rows).length = rows.length
  | 0, _, _ => by simp [lloyd, assignLabels]
  | fuel + 1, cents, rows => by
    rw [lloyd]
    split
    · simp [assignLabels]
    · exact lloyd_length fuel _ rows

theorem nearestIdx_lt (cents : List (List ℚ)) (x : List ℚ) (h : cents ≠ []) :
    nearestIdx cents x < cents.length := by
  unfold nearestIdx
  cases harg : (List.range cents.length).argmin (fun i => sqDist x (cents.getD i [])) with
  | none => simpa using List.length_pos.mpr h
  | some i =>
    have hmem : i ∈ List.range cents.length := List.argmin_mem harg
    simpa using List.mem_range.mp hmem

theorem lloyd_mem_lt : ∀ (fuel : ℕ) (cents rows : List (List ℚ)) (l : ℕ),
    cents ≠ [] → l ∈ lloyd fuel cents rows → l < cents.length
  | 0, cents, _, _, h, hm => by
    simp only [lloyd, assignLabels, List.mem_map] at hm
    obtain ⟨r, _, rfl⟩ := hm
    exact nearestIdx_lt cents r h
  | fuel + 1, cents, rows, l, h, hm => by
    rw [lloyd] at hm
    split at hm
    · simp only [assignLabels, List.mem_map] at hm
      obtain ⟨r, _, rfl⟩ := hm
      exact nearestIdx_lt cents r h
    · have hlen := updateCentroids_length cents rows (assignLabels cents rows)
      have hne : updateCentroids cents rows (assignLabels cents rows) ≠ [] := by
        intro hnil
        rw [hnil] at hlen
        exact h (List.length_eq_zero.mp hlen.symm)
      have hrec := lloyd_mem_lt fuel _ rows l hne hm
      rwa [hlen] at hrec

theorem colVals_exists_of_ne_nil (rows : List RawRow) (yearCols : List ℤ) (y : ℤ)
    (h : colVals rows yearCols y ≠ []) :
    ∃ r ∈ rows, ∃ p ∈ rowPairs yearCols r, p.1 = y ∧ p.2.isSome := by
  obtain ⟨v, hv⟩ := List.exists_mem_of_ne_nil _ h
  rw [colVals, List.mem_flatten] at hv
  obtain ⟨l, hl, hvl⟩ := hv
  rw [List.mem_map] at hl
  obtain ⟨r, hr, rfl⟩ := hl
  rw [List.mem_filterMap] at hvl
  obtain ⟨p, hp, hpv⟩ := hvl
  by_cases hy : p.1 = y
  · refine ⟨r, hr, p, hp, hy, ?_⟩
    rw [if_pos hy] at hpv
    simp [hpv]
  · rw [if_neg hy] at hpv
    cases hpv

theorem pivotCell_isSome (rows : List RawRow) (yearCols : List ℤ) (r : RawRow)
    (p : ℤ × Option ℚ) (hr : r ∈ rows) (hp : p ∈ rowPairs yearCols r) (hs : p.2.isSome) :
    (pivotCell rows yearCols (rowKey r) p.1).isSome := by
  obtain ⟨v, hv⟩ := Option.isSome_iff_exists.mp hs
  have hvmem : v ∈ colVals (rows.filter (fun r' => decide (rowKey r' = rowKey r)))
      yearCols p.1 := by
    rw [colVals, List.mem_flatten]
    refine ⟨(rowPairs yearCols r).filterMap (fun q => if q.1 = p.1 then q.2 else none),
      List.mem_map.mpr ⟨r, List.mem_filter.mpr ⟨hr, by simp⟩, rfl⟩,
      List.mem_filterMap.mpr ⟨p, hp, by simp [hv]⟩⟩
  have hne : (colVals (rows.filter (fun r' => decide (rowKey r' = rowKey r)))
      yearCols p.1).isEmpty = false :=
    List.isEmpty_eq_false.mpr (List.ne_nil_of_mem hvmem)
  simp [pivotCell, hne]

theorem hasDataRow_of_pair (yearCols : List ℤ) (r : RawRow) (p : ℤ × Option ℚ)
    (hp : p ∈ rowPairs yearCols r) (hs : p.2.isSome) : hasDataRow yearCols r = true := by
  rw [hasDataRow, List.any_eq_true]
  exact ⟨p, hp, hs⟩

theorem rowKey_mem_pivotIndex (rows : List RawRow) (yearCols : List ℤ) (r : RawRow)
    (hr : r ∈ rows) (hd : hasDataRow yearCols r = true) :
    rowKey r ∈ pivotIndex rows yearCols := by
  rw [pivotIndex, List.mem_dedup]
  exact List.mem_map.mpr ⟨r, List.mem_filter.mpr ⟨hr, hd⟩, rfl⟩

theorem pivot2Cell_isSome (rows : List RawRow) (yearCols : List ℤ) (r : RawRow)
    (p : ℤ × Option ℚ) (hr : r ∈ rows) (hp : p ∈ rowPairs yearCols r) (hs : p.2.isSome) :
    (pivot2Cell rows yearCols (p.1, r.indicator) r.country).isSome := by
  obtain ⟨v, hv⟩ := Option.isSome_iff_exists.mp hs
  have hvmem : v ∈ ((rows.filter (fun r' => decide (r'.country = r.country)
      && decide (r'.indicator = r.indicator))).map
      (fun r' => (rowPairs yearCols r').filterMap
        (fun q => if q.1 = p.1 then q.2 else none))).flatten := by
    rw [List.mem_flatten]
    refine ⟨(rowPairs yearCols r).filterMap (fun q => if q.1 = p.1 then q.2 else none),
      List.mem_map.mpr ⟨r, List.mem_filter.mpr ⟨hr, by simp⟩, rfl⟩,
      List.mem_filterMap.mpr ⟨p, hp, by simp [hv]⟩⟩
  have hne := List.isEmpty_eq_false.mpr (List.ne_nil_of_mem hvmem)
  simp only [pivot2Cell]
  rw [if_neg (by simp [hne])]
  rfl

theorem pair_mem_pivot2Index (rows : List RawRow) (yearCols : List ℤ) (r : RawRow)
    (p : ℤ × Option ℚ) (hr : r ∈ rows) (hp : p ∈ rowPairs yearCols r) (hs : p.2.isSome) :
    (p.1, r.indicator) ∈ pivot2Index rows yearCols := by
  rw [pivot2Index, List.mem_dedup, List.mem_flatMap]
  exact ⟨r, hr, List.mem_filterMap.mpr ⟨p, hp, by simp [hs]⟩⟩

theorem subset_data_data_length (df : PTable (String × String) ℤ)
    (countries indicators : List String) (sub : PTable ℤ (String × String))
    (h : subset_data df countries indicators = some sub) : sub.data.length = 28 := by
  unfold subset_data at h
  split at h
  · rw [Option.some.injEq] at h
    subst h
    simpa using subsetYears_length
  · simp at h

theorem toMatrixQ_length (md : List (List (Option ℚ))) (m : List (List ℚ))
    (h : toMatrixQ md = some m) : m.length = md.length := by
  unfold toMatrixQ at h
  split at h
  · rw [Option.some.injEq] at h
    subst h
    simp
  · simp at h

theorem dfRows_length (df : DataFrameIdx) : (dfRows df).length = df.index.length := by
  rw [dfRows, List.length_map, List.length_range]

theorem normalize_index_length (sqrtQ : ℚ → ℚ) (df : DataFrameIdx) :
    (normalize_data sqrtQ df).index.length = df.data.length := by
  show (intRange df.data.length).length = df.data.length
  exact intRange_length _

theorem kmeansFitPredict_length (s n k : ℕ) (rows : List (List ℚ)) :
    (kmeansFitPredict s n k rows).length = rows.length :=
  lloyd_length 300 (rows.take k) rows

theorem kmeansFitPredict_mem_lt (s n k : ℕ) (rows : List (List ℚ)) (l : ℕ)
    (hk : 0 < k) (hr : rows ≠ []) (hm : l ∈ kmeansFitPredict s n k rows) : l < k := by
  have hlen : (rows.take k).length = min k rows.length := List.length_take k rows
  have hne : rows.take k ≠ [] := by
    intro hnil
    rw [hnil] at hlen
    have hpos : 0 < min k rows.length := lt_min hk (List.length_pos.mpr hr)
    simp at hlen
    omega
  have hlt := lloyd_mem_lt 300 (rows.take k) rows l hne hm
  rw [hlen] at hlt
  omega

/-- C1: for a fitted row with `n` observations and `p = 2` parameters (and
`n > p`, so the degrees of freedom are positive), `err_ranges` computes the
residual standard deviation as `sqrt(sum(residuals²)/(n − p))`, the
two-sided Student-t critical value at `α` with `n − p` degrees of freedom,
and returns per-parameter half-widths
`critical value × residual stdev × sqrt(1 + diag(pcov))` — i.e. it agrees
with the specification's formula for every choice of the library primitives
`t.ppf`, `sqrt` and `exp`. -/
theorem err_ranges_matches_spec (tppf : ℚ → ℤ → ℚ) (sqrtQ expQ : ℚ → ℚ)
    (xdata ydata : List ℚ) (popt : ℚ × ℚ) (pcov : List (List ℚ)) (alpha : ℚ)
    (h : 2 < ydata.length) :
    err_ranges tppf sqrtQ expQ xdata ydata popt pcov alpha
      = err_ranges_spec tppf sqrtQ expQ xdata ydata popt pcov alpha := by
  have hdof : errDegreesOfFreedom (ydata.length : ℤ) 2 = (ydata.length : ℤ) - 2 := by
    rw [errDegreesOfFreedom]
    omega
  simp only [err_ranges, err_ranges_spec, hdof, neg_one_mul]

/-- Witness for C1 at a concrete fit with three observations. -/
theorem err_ranges_matches_spec_witness :
    2 < ([1, 2, 3] : List ℚ).length
    ∧ err_ranges (fun _ _ => -2) id id [0, 1, 2] [1, 2, 3] (1, 0) [[1, 0], [0, 1]] (1 / 20)
        = err_ranges_spec (fun _ _ => -2) id id [0, 1, 2] [1, 2, 3] (1, 0) [[1, 0], [0, 1]]
            (1 / 20) :=
  ⟨by decide,
   err_ranges_matches_spec (fun _ _ => -2) id id [0, 1, 2] [1, 2, 3] (1, 0)
     [[1, 0], [0, 1]] (1 / 20) (by decide)⟩

/-- C5: the divisor of the residual-standard-deviation computation in
`err_ranges` is `max(0, n − 2)`, which is zero — a division by zero —
exactly when the row has at most 2 observations, and is positive (the
division is defined) exactly under the precondition `n > 2`. -/
theorem err_ranges_dof_guard (n : ℕ) :
    (errDegreesOfFreedom (n : ℤ) 2 = 0 ↔ n ≤ 2)
    ∧ (2 < n → 0 < errDegreesOfFreedom (n : ℤ) 2) := by
  rw [errDegreesOfFreedom]
  omega

/-- Witness for C5: at `n = 2` the divisor is zero, at `n = 3` it is
positive. -/
theorem err_ranges_dof_guard_witness :
    errDegreesOfFreedom ((2 : ℕ) : ℤ) 2 = 0 ∧ 0 < errDegreesOfFreedom ((3 : ℕ) : ℤ) 2 :=
  ⟨(err_ranges_dof_guard 2).1.mpr (by decide), (err_ranges_dof_guard 3).2 (by decide)⟩

/-- C8: clustering is deterministic — with the random seed fixed at 42 in
the source, `perform_kmeans_clustering` is a function of its input alone,
so two runs on the same matrix and cluster count yield identical label
arrays. -/
theorem kmeans_deterministic (df : List (List ℚ)) (k : ℕ) (l1 l2 : List ℕ)
    (h1 : perform_kmeans_clustering df k = l1) (h2 : perform_kmeans_clustering df k = l2) :
    l1 = l2 :=
  h1.symm.trans h2

/-- Witness for C8 on a concrete two-point matrix. -/
theorem kmeans_deterministic_witness :
    perform_kmeans_clustering [[(0 : ℚ), 0], [1, 1]] 2
      = perform_kmeans_clustering [[(0 : ℚ), 0], [1, 1]] 2 :=
  kmeans_deterministic [[(0 : ℚ), 0], [1, 1]] 2 _ _ rfl rfl

/-- C10: `normalize_data` keeps the column labels and the row/column
counts of its input, but replaces the original row index (the year labels)
by pandas' default integer index `0..n-1`. -/
theorem normalize_data_shape (sqrtQ : ℚ → ℚ) (df : DataFrameIdx)
    (hrect : ∀ row ∈ df.data, row.length = df.columns.length) :
    (normalize_data sqrtQ df).columns = df.columns
    ∧ (normalize_data sqrtQ df).index = intRange df.data.length
    ∧ (normalize_data sqrtQ df).data.length = df.data.length
    ∧ ∀ row ∈ (normalize_data sqrtQ df).data, row.length = df.columns.length := by
  refine ⟨rfl, rfl, by simp [normalize_data], ?_⟩
  intro row hrow
  simp only [normalize_data, List.mem_map] at hrow
  obtain ⟨r, hr, rfl⟩ := hrow
  simp [List.length_zip, hrect r hr]

/-- Witness for C10 on a concrete two-column dataframe. -/
theorem normalize_data_shape_witness :
    (normalize_data Rat.sqrt exDf2).columns = exDf2.columns
    ∧ (normalize_data Rat.sqrt exDf2).index = intRange exDf2.data.length
    ∧ (normalize_data Rat.sqrt exDf2).data.length = exDf2.data.length :=
  ⟨(normalize_data_shape Rat.sqrt exDf2 (by decide)).1,
   (normalize_data_shape Rat.sqrt exDf2 (by decide)).2.1,
   (normalize_data_shape Rat.sqrt exDf2 (by decide)).2.2.1⟩

/-- C2 (counterexample): the fitted rate coefficients `b` are *not*
surfaced in `predict_future`'s result — the function returns `None`, so two
`curve_fit` oracles that disagree on `b` still produce identical results. -/
theorem predict_future_result_independent_of_b :
    predict_future id id (fun _ _ => 0) fitOracleOne exRawIndia ["India"] ["A"] 1991 2019
      = predict_future id id (fun _ _ => 0) fitOracleTwo exRawIndia ["India"] ["A"] 1991 2019
    ∧ (fitOracleOne []).1.2 ≠ (fitOracleTwo []).1.2 :=
  ⟨rfl, by decide⟩

/-- C2 (amended): `predict_future` computes, per entity, a local
growth-rate row that broadcasts the fitted rate coefficient `b` of that
entity, but surfaces nothing: the function returns `None` and the local
array is discarded. -/
theorem predict_future_discards_growth_rate (expQ sqrtQ : ℚ → ℚ) (tppf : ℚ → ℤ → ℚ)
    (fit : List (Option ℚ) → (ℚ × ℚ) × List (List ℚ)) (raw : RawTable)
    (countries indicators : List String) (sy ey : ℤ) :
    predict_future expQ sqrtQ tppf fit raw countries indicators sy ey = ()
    ∧ ∀ i, i < (filter_Cereal_yield_data raw countries indicators sy ey).data.length →
        (growth_rate_matrix (filter_Cereal_yield_data raw countries indicators sy ey)
            fit).getD i []
          = List.replicate (filter_Cereal_yield_data raw countries indicators sy ey).cols.length
              ((fit ((filter_Cereal_yield_data raw countries indicators sy ey).data.getD
                  i [])).1.2) := by
  refine ⟨rfl, ?_⟩
  intro i hi
  rw [growth_rate_matrix, getD_map_of_lt _ [] [] _ i hi]

/-- Witness for C2's amended statement on a concrete table and oracle. -/
theorem predict_future_discards_growth_rate_witness :
    predict_future id id (fun _ _ => 0) fitOracleOne exRawIndia ["India"] ["A"] 1991 2019 = ()
    ∧ (growth_rate_matrix (filter_Cereal_yield_data exRawIndia ["India"] ["A"] 1991 2019)
          fitOracleOne).getD 0 []
        = List.replicate
            (filter_Cereal_yield_data exRawIndia ["India"] ["A"] 1991 2019).cols.length
            ((fitOracleOne ((filter_Cereal_yield_data exRawIndia ["India"] ["A"] 1991
                2019).data.getD 0 [])).1.2) :=
  ⟨(predict_future_discards_growth_rate id id (fun _ _ => 0) fitOracleOne exRawIndia
      ["India"] ["A"] 1991 2019).1,
   (predict_future_discards_growth_rate id id (fun _ _ => 0) fitOracleOne exRawIndia
      ["India"] ["A"] 1991 2019).2 0 (by decide)⟩

/-- C6 (amended): `subset_data` does fail with a `KeyError` when a
requested country or indicator is absent from the table's index. -/
theorem subset_data_keyerror_on_absent (df : PTable (String × String) ℤ)
    (countries indicators : List String)
    (h : (∃ c ∈ countries, ∀ k ∈ df.index, k.1 ≠ c)
      ∨ (∃ i ∈ indicators, ∀ k ∈ df.index, k.2 ≠ i)) :
    subset_data df countries indicators = none := by
  by_cases hcond : (countries.all (fun c => df.index.any (fun k => k.1 == c))
      && indicators.all (fun i => df.index.any (fun k => k.2 == i))
      && subsetYears.all (fun y => df.cols.any (fun y' => y' == y))) = true
  · exfalso
    simp only [Bool.and_eq_true] at hcond
    obtain ⟨⟨h1, h2⟩, _⟩ := hcond
    rcases h with ⟨c, hc, habs⟩ | ⟨i, hi, habs⟩
    · rw [List.all_eq_true] at h1
      obtain ⟨k, hk, hkc⟩ := List.any_eq_true.mp (h1 c hc)
      exact habs k hk (by simpa using hkc)
    · rw [List.all_eq_true] at h2
      obtain ⟨k, hk, hki⟩ := List.any_eq_true.mp (h2 i hi)
      exact habs k hk (by simpa using hki)
  · simp [subset_data, hcond]

/-- Witness for C6's amended statement: requesting the absent country
"France" makes `subset_data` raise. -/
theorem subset_data_keyerror_on_absent_witness :
    subset_data endDfYears ["India", "France"] endIndicators = none :=
  subset_data_keyerror_on_absent endDfYears ["India", "France"] endIndicators
    (Or.inl (by decide))

/-- C6 (counterexample): the other subsetting path,
`filter_Cereal_yield_data`, does *not* fail when the requested country
"France" is absent — it silently returns the partial result restricted to
the matching keys. -/
theorem filter_data_returns_partial_match :
    (∀ r ∈ exRawIndia.rows, r.country ≠ "France")
    ∧ (filter_Cereal_yield_data exRawIndia ["India", "France"] ["A"] 1991 2019).index
        = [("India", "A")] :=
  ⟨by decide, by decide⟩

/-- C3 (amended): whenever `subset_data` succeeds, the returned table has
exactly `len(range(1991, 2019)) = 28` rows — the year 2019 is excluded by
Python's `range`, so the "1991-2019" scenario yields 28 rows, not 29 — and
one column per requested `(country, indicator)` pair present in the source
index. -/
theorem subset_data_shape (df : PTable (String × String) ℤ) (countries indicators : List String)
    (sub : PTable ℤ (String × String)) (hwf : df.data.length = df.index.length)
    (h : subset_data df countries indicators = some sub) :
    sub.index.length = 28
    ∧ sub.cols.length = (df.index.filter
        (fun k => countries.contains k.1 && indicators.contains k.2)).length := by
  unfold subset_data at h
  split at h
  · rw [Option.some.injEq] at h
    subst h
    refine ⟨subsetYears_length, ?_⟩
    simp only [List.length_map]
    exact length_filter_zip (fun k => countries.contains k.1 && indicators.contains k.2)
      df.index df.data hwf
  · simp at h

/-- Witness for C3's amended statement in the end-to-end scenario:
28 rows and 4 × 2 = 8 columns. -/
theorem subset_data_shape_witness :
    endSubset.index.length = 28
    ∧ endSubset.cols.length = (endDfYears.index.filter
        (fun k => endCountries.contains k.1 && endIndicators.contains k.2)).length :=
  subset_data_shape endDfYears endCountries endIndicators endSubset (by decide) (by decide)

/-- C3 (counterexample): in the end-to-end scenario the subset has 28 rows,
not the 29 rows the specification claims for the 1991-2019 range. -/
theorem subset_data_not_29_rows :
    (subset_data endDfYears endCountries endIndicators).map (fun s => s.index.length)
      = some 28
    ∧ (subset_data endDfYears endCountries endIndicators).map (fun s => s.index.length)
        ≠ some 29 := by
  constructor <;> decide

/-- C9: the Pearson correlation matrix rendered by `map_corr` is symmetric,
and every diagonal entry at a non-degenerate (non-constant) column equals 1
— for any `sqrt` primitive that is exact on squares of non-negative
rationals, as `np.sqrt` is. -/
theorem corr_matrix_symm_unit_diag (sqrtQ : ℚ → ℚ) (df : DataFrameIdx) (i j : ℕ)
    (hi : i < df.columns.length) (hj : j < df.columns.length)
    (hsqrt : ∀ a : ℚ, 0 ≤ a → sqrtQ (a * a) = a)
    (hnc : sumSq (centered (matCol df.data i)) ≠ 0) :
    corrAt sqrtQ df i j = corrAt sqrtQ df j i ∧ corrAt sqrtQ df i i = 1 := by
  have hAt : ∀ a b : ℕ, a < df.columns.length → b < df.columns.length →
      corrAt sqrtQ df a b = corrEntry sqrtQ (matCol df.data a) (matCol df.data b) := by
    intro a b ha hb
    rw [corrAt, df_corr, getD_range_map_of_lt _ [] _ a ha, getD_range_map_of_lt _ 0 _ b hb]
  constructor
  · rw [hAt i j hi hj, hAt j i hj hi, corrEntry, corrEntry, dotL_comm, mul_comm]
  · rw [hAt i i hi hi, corrEntry, dotL_self, hsqrt _ (sumSq_nonneg _), div_self hnc]

/-- Witness for C9 on a concrete two-column dataframe with `Rat.sqrt` as
the square-root primitive. -/
theorem corr_matrix_symm_unit_diag_witness :
    corrAt Rat.sqrt exDf2 0 1 = corrAt Rat.sqrt exDf2 1 0
    ∧ corrAt Rat.sqrt exDf2 0 0 = 1 :=
  corr_matrix_symm_unit_diag Rat.sqrt exDf2 0 1 (by decide) (by decide) ratSqrt_mul_self
    (by decide)

/-- C7: the pivoted views built by `file_read` are clean — every year
column of the entity-major view retains at least one value (so the
`dropna(how='all', axis=1)` keeps every column and no all-missing column
survives), the entity-major view has at most as many columns as the CSV has
year columns, its index has exactly the source rows that are not entirely
missing (when the `(country, indicator)` keys are distinct, as in a
World-Bank CSV), and likewise no all-missing country column survives in the
year-major view. -/
theorem pivoted_views_clean (raw : RawTable) :
    (∀ y ∈ (file_read_years raw).cols, ∃ k ∈ (file_read_years raw).index,
        (pivotCell raw.rows raw.yearCols k y).isSome)
    ∧ (file_read_years raw).cols.length ≤ raw.yearCols.length
    ∧ ((raw.rows.map rowKey).Nodup →
        (file_read_years raw).index.length
          = (raw.rows.filter (hasDataRow raw.yearCols)).length)
    ∧ (∀ c ∈ (file_read_countries raw).cols, ∃ k ∈ (file_read_countries raw).index,
        (pivot2Cell raw.rows raw.yearCols k c).isSome) := by
  refine ⟨?_, ?_, ?_, ?_⟩
  · intro y hy
    have hy' : y ∈ pivotCols raw.rows raw.yearCols := hy
    rw [pivotCols, List.mem_dedup, List.mem_filter] at hy'
    obtain ⟨-, hne⟩ := hy'
    have hnil : colVals raw.rows raw.yearCols y ≠ [] := by
      simpa using hne
    obtain ⟨r, hr, p, hp, hpy, hps⟩ := colVals_exists_of_ne_nil _ _ _ hnil
    refine ⟨rowKey r, rowKey_mem_pivotIndex _ _ r hr (hasDataRow_of_pair _ r p hp hps), ?_⟩
    have hcell := pivotCell_isSome raw.rows raw.yearCols r p hr hp hps
    rwa [hpy] at hcell
  · have h1 : (pivotCols raw.rows raw.yearCols).Sublist
        (raw.yearCols.filter (fun y => !(colVals raw.rows raw.yearCols y).isEmpty)) :=
      List.dedup_sublist _
    exact (h1.trans (List.filter_sublist _)).length_le
  · intro hnd
    have hsub : List.Sublist ((raw.rows.filter (hasDataRow raw.yearCols)).map rowKey)
        (raw.rows.map rowKey) := (List.filter_sublist _).map rowKey
    have hnd2 := List.Nodup.sublist hsub hnd
    show (((raw.rows.filter (hasDataRow raw.yearCols)).map rowKey).dedup).length = _
    rw [hnd2.dedup, List.length_map]
  · intro c hc
    have hc' : c ∈ pivot2Cols raw.rows raw.yearCols := hc
    rw [pivot2Cols, List.mem_dedup, List.mem_map] at hc'
    obtain ⟨r, hrf, rfl⟩ := hc'
    rw [List.mem_filter] at hrf
    obtain ⟨hr, hd⟩ := hrf
    rw [hasDataRow, List.any_eq_true] at hd
    obtain ⟨p, hp, hps⟩ := hd
    exact ⟨(p.1, r.indicator),
      pair_mem_pivot2Index raw.rows raw.yearCols r p hr hp hps,
      pivot2Cell_isSome raw.rows raw.yearCols r p hr hp hps⟩

/-- Witness for C7 on a concrete CSV with an all-missing row and an
all-missing year column. -/
theorem pivoted_views_clean_witness :
    (file_read_years exRawSparse).cols.length ≤ exRawSparse.yearCols.length
    ∧ (file_read_years exRawSparse).index.length
        = (exRawSparse.rows.filter (hasDataRow exRawSparse.yearCols)).length :=
  ⟨(pivoted_views_clean exRawSparse).2.1,
   (pivoted_views_clean exRawSparse).2.2.1 (by decide)⟩

/-- C4 (amended): in the end-to-end scenario the clustering step labels the
*rows* of the normalized subset — the 28 year rows, not the 4 countries —
so whenever the pipeline succeeds the label array has length 28 (not 4) and
every label lies in `{0, 1, 2}`. -/
theorem end_to_end_labels_shape (sqrtQ : ℚ → ℚ) (dfy : PTable (String × String) ℤ)
    (countries indicators : List String) (labels : List ℕ)
    (h : endToEndLabels sqrtQ dfy countries indicators = some labels) :
    labels.length = 28 ∧ ∀ l ∈ labels, l < 3 := by
  rw [endToEndLabels] at h
  cases hsub : subset_data dfy countries indicators with
  | none => rw [hsub] at h; cases h
  | some sub =>
    rw [hsub] at h
    rw [Option.some_bind] at h
    cases hm : toMatrixQ sub.data with
    | none => rw [hm] at h; cases h
    | some m =>
      rw [hm, Option.map_some', Option.some.injEq] at h
      have hrl : (dfRows (normalize_data sqrtQ
          { index := sub.index, columns := sub.cols, data := m })).length = 28 := by
        rw [dfRows_length, normalize_index_length]
        show m.length = 28
        rw [toMatrixQ_length sub.data m hm,
          subset_data_data_length dfy countries indicators sub hsub]
      constructor
      · rw [← h, kmeansFitPredict_length, hrl]
      · intro l hl
        rw [← h] at hl
        refine kmeansFitPredict_mem_lt 42 10 3 _ l (by norm_num) ?_ hl
        intro hnil
        rw [hnil] at hrl
        simp at hrl

set_option maxRecDepth 400000 in
/-- Witness for C4's amended statement: the concrete end-to-end labels. -/
theorem end_to_end_labels_shape_witness : endLabels.length = 28 :=
  (end_to_end_labels_shape Rat.sqrt endDfYears endCountries endIndicators endLabels
    (by decide)).1

set_option maxRecDepth 400000 in
/-- C4 (counterexample): the end-to-end label array has length 28, not the
length 4 the specification claims. -/
theorem end_to_end_labels_not_length_4 :
    (endToEndLabels Rat.sqrt endDfYears endCountries endIndicators).map List.length = some 28
    ∧ (endToEndLabels Rat.sqrt endDfYears endCountries endIndicators).map List.length
        ≠ some 4 := by
  constructor <;> decide
